import Mathlib

/-!
Shallow embedding of `src/dashboard.py` (Bristol Weather Dashboard).

Modelling conventions:
* Parsed timestamps (`pd.to_datetime`, `datetime.datetime.now()`) are points
  on a discrete time line, modelled as `Int` seconds; `datetime.timedelta
  (hours=24)` is `86400`.  The program only compares timestamps, never
  computes with their calendar structure.
* Numeric sensor values (temperatures, humidity, precipitation probability)
  are carried around by the program but never computed with; they are
  modelled as `Int` scalars.  Displayed current-condition values pass
  through Python string formatting, so they are modelled as the strings
  that end up in the f-string (`current.get("temperature_2m", "N/A")`).
* A missing dictionary key (`dict.get`) is an `Option` that is `none`.
* Python exceptions never escape the modelled fragment: `get_weather_data`
  catches `requests.exceptions.RequestException` (which, in the `requests`
  versions this code runs against, also covers `response.json()` decode
  failures), and everything downstream of the `if data:` check is built
  from total dictionary/dataframe operations, so all embedded functions
  are total Lean functions; totality models "does not raise".
-/

namespace WeatherDash

/-- Static WMO weather-code table, `WEATHER_CODES` in `dashboard.py`
(lines 17-29), as an association list in source order. -/
def WEATHER_CODES : List (Int × String) :=
  [ (0, "Clear sky"),
    (1, "Mainly clear"), (2, "Partly cloudy"), (3, "Overcast"),
    (45, "Fog"), (48, "Depositing rime fog"),
    (51, "Drizzle: Light"), (53, "Drizzle: Moderate"), (55, "Drizzle: Dense intensity"),
    (61, "Rain: Slight"), (63, "Rain: Moderate"), (65, "Rain: Heavy intensity"),
    (71, "Snow fall: Slight"), (73, "Snow fall: Moderate"), (75, "Snow fall: Heavy intensity"),
    (77, "Snow grains"),
    (80, "Rain showers: Slight"), (81, "Rain showers: Moderate"), (82, "Rain showers: Violent"),
    (85, "Snow showers: Slight"), (86, "Snow showers: Heavy"),
    (95, "Thunderstorm: Slight or moderate"),
    (96, "Thunderstorm with slight hail"), (99, "Thunderstorm with heavy hail") ]

/-- Python `WEATHER_CODES.get(code, "Unknown")` (line 65). -/
def weatherDesc (code : Int) : String :=
  (WEATHER_CODES.lookup code).getD "Unknown"

/-- The `current` sub-object of the API response: each requested field may
be absent (`dict.get` with a default). -/
structure CurrentRec where
  temperature_2m : Option String
  wind_speed_10m : Option String
  weather_code : Option Int
deriving DecidableEq, Repr

/-- The `current = {}` default used by `data.get("current", {})`:
every field lookup on the empty dict falls through to its default. -/
def emptyCurrent : CurrentRec := ⟨none, none, none⟩

/-- The `hourly` sub-object of the API response: parallel ordered
sequences sharing index meaning, timestamps already parsed
(`pd.to_datetime` on line 76). -/
structure HourlyRec where
  time : List Int
  temperature_2m : List Int
  relative_humidity_2m : List Int
  precipitation_probability : List Int
deriving DecidableEq, Repr

/-- A successfully parsed API response (`response.json()`), restricted to
the two sub-objects the program reads.  `none` in a field models a missing
key, handled by `data.get(..., {})`. -/
structure Snapshot where
  current : Option CurrentRec
  hourly : Option HourlyRec
deriving DecidableEq, Repr

/-- Current-conditions values derived on lines 61-65. -/
structure CurrentView where
  temp_display : String
  wind_display : String
  code : Int
  desc : String
deriving DecidableEq, Repr

/-- Lines 61-65: `current = data.get("current", {})`, then per-field
`dict.get` defaults (`"N/A"`, `"N/A"`, `0`) and the table lookup. -/
def extractCurrent (data : Snapshot) : CurrentView :=
  let current := data.current.getD emptyCurrent
  { temp_display := current.temperature_2m.getD "N/A"
    wind_display := current.wind_speed_10m.getD "N/A"
    code := current.weather_code.getD 0
    desc := weatherDesc (current.weather_code.getD 0) }

/-- One row of `pd.DataFrame(hourly)` (line 75): position `i` of every
parallel sequence. -/
structure Row where
  time : Int
  temperature_2m : Int
  relative_humidity_2m : Int
  precipitation_probability : Int
deriving DecidableEq, Repr

/-- Line 75, `pd.DataFrame(hourly)`: reshape the parallel column lists
into row records (zip truncates at the shortest column; under the
data-model invariant all columns have equal length, so nothing is lost). -/
def rowsOf (h : HourlyRec) : List Row :=
  (h.time.zip (h.temperature_2m.zip
      (h.relative_humidity_2m.zip h.precipitation_probability))).map
    (fun p => ⟨p.1, p.2.1, p.2.2.1, p.2.2.2⟩)

/-- The filter predicate of line 80: `(df['time'] >= now) & (df['time'] <
now + datetime.timedelta(hours=24))`. -/
def inWindow (now : Int) (r : Row) : Prop :=
  now ≤ r.time ∧ r.time < now + 86400

instance (now : Int) (r : Row) : Decidable (inWindow now r) := by
  unfold inWindow; infer_instance

/-- Line 80: `next_24h = df[(df['time'] >= now) & (df['time'] < now +
datetime.timedelta(hours=24))]` — a boolean-mask row filter, which keeps
source order. -/
def next24h (now : Int) (rows : List Row) : List Row :=
  rows.filter (fun r => decide (inWindow now r))

/-- One plotly trace as configured on lines 86-112: the data carried per
series (x values, y values, mode, per-point marker text). -/
structure Trace where
  x : List Int
  y : List Int
  mode : String
  text : List String
deriving DecidableEq, Repr

/-- The dual-axis figure built on lines 83-123. -/
structure Figure where
  tempTrace : Trace
  precipTrace : Trace
  yaxis2Range : Int × Int
deriving DecidableEq, Repr

/-- Lines 83-123: build the figure from the windowed rows — temperature
on the left axis (`mode="lines+text"`), precipitation probability on the
right axis (`mode="text"`, range `[0, 110]`), one marker glyph per row. -/
def buildFigure (win : List Row) : Figure :=
  { tempTrace :=
      { x := win.map Row.time
        y := win.map Row.temperature_2m
        mode := "lines+text"
        text := List.replicate win.length "🌡️" }
    precipTrace :=
      { x := win.map Row.time
        y := win.map Row.precipitation_probability
        mode := "text"
        text := List.replicate win.length "🌧️" }
    yaxis2Range := (0, 110) }

/-- Outcome of the transport layer for one `requests.get` call:
either a transport-level exception, or an HTTP response with a status
code and a JSON-parse outcome for its body. -/
inductive HttpResult where
  | err (msg : String)
  | resp (status : Nat) (body : Except String Snapshot)
deriving Repr

/-- Predicate on transport outcomes: a transport-level error, a
non-success HTTP status (`raise_for_status` raises for 4xx/5xx), or a
malformed-JSON body. -/
def isFetchFailure : HttpResult → Prop
  | .err _ => True
  | .resp status body => 400 ≤ status ∨ ∃ e, body = .error e

instance (net : HttpResult) : Decidable (isFetchFailure net) := by
  cases net with
  | err m => exact isTrue trivial
  | resp s b =>
      unfold isFetchFailure
      cases b with
      | error e => exact isTrue (Or.inr ⟨e, rfl⟩)
      | ok d =>
          by_cases h : 400 ≤ s
          · exact isTrue (Or.inl h)
          · exact isFalse (by rintro (hs | ⟨e, he⟩) <;> simp_all)

/-- Lines 32-48, `get_weather_data` (body of one network round-trip):
`requests.get` may raise, `raise_for_status` raises `HTTPError` on a
4xx/5xx status, `response.json()` raises on a malformed body; every such
`RequestException` is caught, reported via `st.error(f"Error fetching
data: {e}")`, and turned into a `None` return.  Returns the snapshot (or
`none`) together with the error message surfaced (or `none`). -/
def get_weather_data (net : HttpResult) : Option Snapshot × Option String :=
  match net with
  | .err e => (none, some ("Error fetching data: " ++ e))
  | .resp status body =>
      if 400 ≤ status then
        (none, some ("Error fetching data: HTTP status " ++ toString status))
      else
        match body with
        | .error e => (none, some ("Error fetching data: " ++ e))
        | .ok data => (some data, none)

/-- One rendered UI element, in emission order. -/
inductive RenderItem where
  | metric (label value : String)
  | chart (fig : Figure)
  | rawDataPanel (label : String) (collapsedByDefault : Bool) (rows : List Row)
deriving DecidableEq, Repr

/-- Lines 59-128 of `main`, after the fetch: the whole block is guarded
by `if data:` (a failed fetch returns `None`, which is falsy, so nothing
is rendered); the chart/raw-table block is further guarded by
`if hourly:` where `hourly = data.get("hourly", {})` (absent key or empty
dict is falsy).  `st.expander("View Raw Data")` is collapsed by default
and shows the full dataframe `df`, not the window. -/
def renderBody (data : Option Snapshot) (now : Int) : List RenderItem :=
  match data with
  | none => []
  | some d =>
      let cv := extractCurrent d
      [ .metric "Temperature" (cv.temp_display ++ " °C"),
        .metric "Wind Speed" (cv.wind_display ++ " km/h"),
        .metric "Condition" cv.desc ]
      ++ match d.hourly with
         | none => []
         | some h =>
             let df := rowsOf h
             let win := next24h now df
             [ .chart (buildFigure win),
               .rawDataPanel "View Raw Data" true df ]

/-- Cache time-to-live declared by `@st.cache_data(ttl=900)` (line 31),
in seconds. -/
def TTL : Int := 900

/-- Modelled from the spec: the process-wide memoization store of the
`@st.cache_data(ttl=900)` decorator (the decorator's semantics live in
the UI framework, outside this repository).  The single (constant-key)
entry records when it was stored and the full return value of
`get_weather_data`. -/
structure CacheState where
  entry : Option (Int × Option Snapshot)
deriving DecidableEq, Repr

/-- Modelled from the spec: calling the decorated `get_weather_data` at
wall-clock `now` against transport outcome `net`.  A stored entry younger
than the TTL is returned as-is with no network round-trip; otherwise one
outbound request is issued and its result stored.  Returns (returned
snapshot, new cache state, number of network requests issued). -/
def cachedFetch (s : CacheState) (now : Int) (net : HttpResult) :
    Option Snapshot × CacheState × Nat :=
  match s.entry with
  | some (t, v) =>
      if now - t < TTL then (v, s, 0)
      else ((get_weather_data net).1, ⟨some (now, (get_weather_data net).1)⟩, 1)
  | none => ((get_weather_data net).1, ⟨some (now, (get_weather_data net).1)⟩, 1)

/-- Lines 53-55: the "Refresh Data" button runs `st.cache_data.clear()`
(then `st.rerun()`, after which the rerun calls `get_weather_data`
again). -/
def clearCache (_ : CacheState) : CacheState := ⟨none⟩

/-! Helper lemmas shared across claims. -/

/-- Association-list lookup on a key that is not in the key column of the
list fails. -/
lemma lookup_eq_none_of_not_mem_keys {α β : Type} [DecidableEq α]
    (c : α) (l : List (α × β)) (h : c ∉ l.map Prod.fst) :
    l.lookup c = none := by
  induction l with
  | nil => rfl
  | cons p t ih =>
      obtain ⟨k, v⟩ := p
      simp only [List.map_cons, List.mem_cons] at h
      push_neg at h
      have hb : (c == k) = false := by
        simp only [beq_eq_false_iff_ne, ne_eq]
        exact h.1
      simp [List.lookup, hb, ih h.2]

/-- When the hourly columns have equal length, the time column of the
dataframe rows is exactly the source time sequence. -/
lemma rowsOf_map_time (h : HourlyRec)
    (hlt : h.temperature_2m.length = h.time.length)
    (hlh : h.relative_humidity_2m.length = h.time.length)
    (hlp : h.precipitation_probability.length = h.time.length) :
    (rowsOf h).map Row.time = h.time := by
  unfold rowsOf
  rw [List.map_map]
  have hcomp : (Row.time ∘ fun p : Int × Int × Int × Int =>
      (⟨p.1, p.2.1, p.2.2.1, p.2.2.2⟩ : Row)) = Prod.fst := rfl
  rw [hcomp, List.map_fst_zip]
  simp only [List.length_zip]
  omega

/-- Every dataframe row's timestamp comes from the source time column. -/
lemma time_mem_of_mem_rowsOf {h : HourlyRec} {r : Row}
    (hr : r ∈ rowsOf h) : r.time ∈ h.time := by
  unfold rowsOf at hr
  obtain ⟨p, hp, hpe⟩ := List.mem_map.mp hr
  obtain ⟨a, b⟩ := p
  have ha := (List.of_mem_zip hp).1
  rw [← hpe]
  exact ha

/-! Claim theorems. -/

/-- C2: every integer code that is a key of `WEATHER_CODES` looks up to
its documented description, and every code that is not a key looks up to
`"Unknown"`; the lookup is a total function, so it never fails. -/
theorem weather_code_lookup_spec :
    (∀ p ∈ WEATHER_CODES, weatherDesc p.1 = p.2) ∧
    (∀ c : Int, c ∉ WEATHER_CODES.map Prod.fst → weatherDesc c = "Unknown") := by
  constructor
  · decide
  · intro c hc
    unfold weatherDesc
    rw [lookup_eq_none_of_not_mem_keys c WEATHER_CODES hc]
    rfl

/-- Witness for C2: code 45 is in the table and resolves to "Fog";
code 7 is not a key and resolves to "Unknown". -/
theorem weather_code_lookup_spec_witness :
    ((45, "Fog") ∈ WEATHER_CODES ∧ weatherDesc 45 = "Fog") ∧
    ((7 : Int) ∉ WEATHER_CODES.map Prod.fst ∧ weatherDesc 7 = "Unknown") :=
  ⟨⟨by decide, weather_code_lookup_spec.1 (45, "Fog") (by decide)⟩,
   ⟨by decide, weather_code_lookup_spec.2 7 (by decide)⟩⟩

/-- C3: when the `current` sub-record lacks `weather_code`, the
extraction substitutes code 0 and the condition text is "Clear sky"
(the table entry for 0), not "Unknown"; extraction is a total function,
so no error is raised. -/
theorem missing_weather_code_clear_sky (d : Snapshot) (cur : CurrentRec)
    (hcur : d.current = some cur) (hcode : cur.weather_code = none) :
    (extractCurrent d).code = 0 ∧
    (extractCurrent d).desc = "Clear sky" ∧
    (extractCurrent d).desc ≠ "Unknown" := by
  simp [extractCurrent, hcur, hcode, weatherDesc, WEATHER_CODES, List.lookup]

/-- Witness for C3: a concrete snapshot whose `current` has no
`weather_code`. -/
theorem missing_weather_code_clear_sky_witness :
    (Snapshot.current ⟨some ⟨some "12.0", some "5.5", none⟩, none⟩ =
        some ⟨some "12.0", some "5.5", none⟩) ∧
    (CurrentRec.weather_code ⟨some "12.0", some "5.5", none⟩ = none) ∧
    ((extractCurrent ⟨some ⟨some "12.0", some "5.5", none⟩, none⟩).code = 0 ∧
     (extractCurrent ⟨some ⟨some "12.0", some "5.5", none⟩, none⟩).desc = "Clear sky" ∧
     (extractCurrent ⟨some ⟨some "12.0", some "5.5", none⟩, none⟩).desc ≠ "Unknown") :=
  ⟨rfl, rfl,
   missing_weather_code_clear_sky ⟨some ⟨some "12.0", some "5.5", none⟩, none⟩
     ⟨some "12.0", some "5.5", none⟩ rfl rfl⟩

/-- C5: in a successfully fetched snapshot, each absent `current` field
is replaced by its documented default — the display placeholder "N/A"
for temperature and wind, code 0 for the weather code; extraction is a
total function, so no error is raised. -/
theorem current_field_defaults (d : Snapshot) (cur : CurrentRec)
    (hcur : d.current = some cur) :
    (cur.temperature_2m = none → (extractCurrent d).temp_display = "N/A") ∧
    (cur.wind_speed_10m = none → (extractCurrent d).wind_display = "N/A") ∧
    (cur.weather_code = none → (extractCurrent d).code = 0) := by
  refine ⟨fun ht => ?_, fun hw => ?_, fun hc => ?_⟩
  · simp [extractCurrent, hcur, ht]
  · simp [extractCurrent, hcur, hw]
  · simp [extractCurrent, hcur, hc]

/-- Witness for C5: a snapshot whose `current` is present but has all
three fields absent. -/
theorem current_field_defaults_witness :
    (Snapshot.current ⟨some ⟨none, none, none⟩, none⟩ = some ⟨none, none, none⟩) ∧
    ((extractCurrent ⟨some ⟨none, none, none⟩, none⟩).temp_display = "N/A" ∧
     (extractCurrent ⟨some ⟨none, none, none⟩, none⟩).wind_display = "N/A" ∧
     (extractCurrent ⟨some ⟨none, none, none⟩, none⟩).code = 0) := by
  have h := current_field_defaults ⟨some ⟨none, none, none⟩, none⟩ ⟨none, none, none⟩ rfl
  exact ⟨rfl, h.1 rfl, h.2.1 rfl, h.2.2 rfl⟩

/-- C4: every transport-level error, non-success HTTP status, or
malformed-JSON response results in an absent snapshot (never a partial
one) together with a human-readable "Error fetching data: ..." message,
and the render of metrics and chart is skipped entirely (nothing at all
is emitted for an absent snapshot). -/
theorem fetch_failure_no_render (net : HttpResult) (now : Int)
    (hfail : isFetchFailure net) :
    (get_weather_data net).1 = none ∧
    (∃ msg, (get_weather_data net).2 = some ("Error fetching data: " ++ msg)) ∧
    renderBody (get_weather_data net).1 now = [] := by
  cases net with
  | err e => exact ⟨rfl, ⟨e, rfl⟩, rfl⟩
  | resp status body =>
      by_cases hs : 400 ≤ status
      · refine ⟨?_, ⟨"HTTP status " ++ toString status, ?_⟩, ?_⟩
        · simp [get_weather_data, hs]
        · simp only [get_weather_data, if_pos hs, Option.some.injEq]
          rw [← String.append_assoc]
          congr 1
        · simp [get_weather_data, hs, renderBody]
      · rcases hfail with hs2 | ⟨e, he⟩
        · exact absurd hs2 hs
        · subst he
          refine ⟨?_, ⟨e, ?_⟩, ?_⟩ <;> simp [get_weather_data, hs, renderBody]

/-- Witness for C4: a concrete transport error. -/
theorem fetch_failure_no_render_witness :
    isFetchFailure (HttpResult.err "Connection timed out") ∧
    ((get_weather_data (HttpResult.err "Connection timed out")).1 = none ∧
     (∃ msg, (get_weather_data (HttpResult.err "Connection timed out")).2 =
        some ("Error fetching data: " ++ msg)) ∧
     renderBody (get_weather_data (HttpResult.err "Connection timed out")).1 0 = []) :=
  ⟨trivial, fetch_failure_no_render (HttpResult.err "Connection timed out") 0 trivial⟩

/-- C10: when the `hourly` sub-record is absent (or an empty, falsy
dict), the render emits exactly the three current-conditions metrics —
no chart and no raw-data panel — and, being a total function, does not
fail. -/
theorem missing_hourly_metrics_only (d : Snapshot) (now : Int)
    (hh : d.hourly = none) :
    renderBody (some d) now =
      [ RenderItem.metric "Temperature" ((extractCurrent d).temp_display ++ " °C"),
        RenderItem.metric "Wind Speed" ((extractCurrent d).wind_display ++ " km/h"),
        RenderItem.metric "Condition" (extractCurrent d).desc ] := by
  simp [renderBody, hh]

/-- Witness for C10: a concrete snapshot with current data but no
`hourly` key. -/
theorem missing_hourly_metrics_only_witness :
    (Snapshot.hourly ⟨some ⟨some "12.0", some "5.5", some 3⟩, none⟩ = none) ∧
    renderBody (some ⟨some ⟨some "12.0", some "5.5", some 3⟩, none⟩) 0 =
      [ RenderItem.metric "Temperature" "12.0 °C",
        RenderItem.metric "Wind Speed" "5.5 km/h",
        RenderItem.metric "Condition" "Overcast" ] := by
  refine ⟨rfl, ?_⟩
  rw [missing_hourly_metrics_only ⟨some ⟨some "12.0", some "5.5", some 3⟩, none⟩ 0 rfl]
  rfl

/-- C9: for a snapshot with a (non-empty) `hourly` sub-record, the
render contains the raw-data panel, collapsed by default, holding every
row of the full hourly dataframe — not the 24-hour window: its time
column is the entire source time sequence. -/
theorem raw_view_full_table (d : Snapshot) (h : HourlyRec) (now : Int)
    (hh : d.hourly = some h)
    (hlt : h.temperature_2m.length = h.time.length)
    (hlh : h.relative_humidity_2m.length = h.time.length)
    (hlp : h.precipitation_probability.length = h.time.length) :
    RenderItem.rawDataPanel "View Raw Data" true (rowsOf h) ∈ renderBody (some d) now ∧
    (rowsOf h).map Row.time = h.time := by
  constructor
  · simp [renderBody, hh]
  · exact rowsOf_map_time h hlt hlh hlp

/-- Witness for C9: a concrete two-row hourly series. -/
theorem raw_view_full_table_witness :
    (Snapshot.hourly ⟨none, some ⟨[0, 3600], [10, 11], [50, 55], [20, 30]⟩⟩ =
        some ⟨[0, 3600], [10, 11], [50, 55], [20, 30]⟩) ∧
    (RenderItem.rawDataPanel "View Raw Data" true
        (rowsOf ⟨[0, 3600], [10, 11], [50, 55], [20, 30]⟩) ∈
      renderBody (some ⟨none, some ⟨[0, 3600], [10, 11], [50, 55], [20, 30]⟩⟩) 0 ∧
     (rowsOf ⟨[0, 3600], [10, 11], [50, 55], [20, 30]⟩).map Row.time = [0, 3600]) :=
  ⟨rfl, raw_view_full_table ⟨none, some ⟨[0, 3600], [10, 11], [50, 55], [20, 30]⟩⟩
    ⟨[0, 3600], [10, 11], [50, 55], [20, 30]⟩ 0 rfl rfl rfl rfl⟩

/-- C6: when every timestamp of the hourly series lies at or past
`now + 24h`, the window is empty, and the chart over the empty window is
still built and rendered — with empty (but well-formed) traces — by the
total render function, so downstream rendering does not fail. -/
theorem stale_series_empty_window_renders (d : Snapshot) (h : HourlyRec) (now : Int)
    (hh : d.hourly = some h)
    (hstale : ∀ t ∈ h.time, now + 86400 ≤ t) :
    next24h now (rowsOf h) = [] ∧
    RenderItem.chart (buildFigure []) ∈ renderBody (some d) now ∧
    (buildFigure []).tempTrace.x = [] ∧
    (buildFigure []).precipTrace.x = [] := by
  have hw : next24h now (rowsOf h) = [] := by
    unfold next24h
    rw [List.filter_eq_nil_iff]
    intro r hr
    have ht := hstale r.time (time_mem_of_mem_rowsOf hr)
    simp only [decide_eq_true_eq, inWindow, not_and, not_lt]
    intro _
    exact ht
  refine ⟨hw, ?_, rfl, rfl⟩
  simp [renderBody, hh, hw]

/-- Witness for C6: every timestamp at least a day past `now = 0`. -/
theorem stale_series_empty_window_renders_witness :
    (Snapshot.hourly ⟨none, some ⟨[100000, 103600], [1, 2], [3, 4], [5, 6]⟩⟩ =
        some ⟨[100000, 103600], [1, 2], [3, 4], [5, 6]⟩) ∧
    (∀ t ∈ ([100000, 103600] : List Int), (0 : Int) + 86400 ≤ t) ∧
    (next24h 0 (rowsOf ⟨[100000, 103600], [1, 2], [3, 4], [5, 6]⟩) = [] ∧
     RenderItem.chart (buildFigure []) ∈
        renderBody (some ⟨none, some ⟨[100000, 103600], [1, 2], [3, 4], [5, 6]⟩⟩) 0 ∧
     (buildFigure []).tempTrace.x = [] ∧
     (buildFigure []).precipTrace.x = []) :=
  ⟨rfl, by decide,
   stale_series_empty_window_renders
     ⟨none, some ⟨[100000, 103600], [1, 2], [3, 4], [5, 6]⟩⟩
     ⟨[100000, 103600], [1, 2], [3, 4], [5, 6]⟩ 0 rfl (by decide)⟩

/-- C7: starting from the initial (cleared) cache state — the spec's
EXPIRED state, which forces the first fetch — two calls separated by
less than the 900-second TTL with no intervening refresh issue exactly
one outbound request in total, and the second call returns a value
identical (by value) to the first. -/
theorem ttl_cache_single_request (t₁ t₂ : Int) (net₁ net₂ : HttpResult)
    (hlt : t₂ - t₁ < TTL) :
    (cachedFetch ⟨none⟩ t₁ net₁).2.2 +
      (cachedFetch (cachedFetch ⟨none⟩ t₁ net₁).2.1 t₂ net₂).2.2 = 1 ∧
    (cachedFetch (cachedFetch ⟨none⟩ t₁ net₁).2.1 t₂ net₂).1 =
      (cachedFetch ⟨none⟩ t₁ net₁).1 := by
  have h1 : cachedFetch ⟨none⟩ t₁ net₁ =
      ((get_weather_data net₁).1, ⟨some (t₁, (get_weather_data net₁).1)⟩, 1) := rfl
  rw [h1]
  simp [cachedFetch, hlt]

/-- Witness for C7: two calls 100 seconds apart from a cleared cache. -/
theorem ttl_cache_single_request_witness :
    ((0 : Int) + 100 - 0 < TTL) ∧
    ((cachedFetch ⟨none⟩ 0 (HttpResult.err "a")).2.2 +
        (cachedFetch (cachedFetch ⟨none⟩ 0 (HttpResult.err "a")).2.1 100
          (HttpResult.err "b")).2.2 = 1 ∧
     (cachedFetch (cachedFetch ⟨none⟩ 0 (HttpResult.err "a")).2.1 100
        (HttpResult.err "b")).1 =
       (cachedFetch ⟨none⟩ 0 (HttpResult.err "a")).1) :=
  ⟨by decide, ttl_cache_single_request 0 100 (HttpResult.err "a")
    (HttpResult.err "b") (by decide)⟩

/-- C8: clearing the cache (the "Refresh Data" action) happens before
the forced re-fetch: a call after the clear issues one outbound request
even within the prior entry's TTL window, returns the fresh fetch's
value, and stores an entry whose timestamp is strictly newer than the
prior cached entry's. -/
theorem refresh_forces_fresh_fetch (s : CacheState) (t₀ t₂ : Int)
    (v : Option Snapshot) (net : HttpResult)
    (hent : s.entry = some (t₀, v))
    (_hwithin : t₂ - t₀ < TTL)
    (hadvanced : t₀ < t₂) :
    (cachedFetch (clearCache s) t₂ net).2.2 = 1 ∧
    (cachedFetch (clearCache s) t₂ net).1 = (get_weather_data net).1 ∧
    (cachedFetch (clearCache s) t₂ net).2.1.entry =
      some (t₂, (get_weather_data net).1) ∧
    (∀ t v₀, s.entry = some (t, v₀) → t < t₂) := by
  refine ⟨rfl, rfl, rfl, ?_⟩
  intro t v₀ h₀
  rw [hent] at h₀
  cases h₀
  exact hadvanced

/-- Witness for C8: a cache holding an entry fetched at time 0, cleared
and re-fetched at time 10 (well inside the 900-second TTL). -/
theorem refresh_forces_fresh_fetch_witness :
    (CacheState.entry ⟨some (0, some ⟨none, none⟩)⟩ = some (0, some ⟨none, none⟩)) ∧
    ((10 : Int) - 0 < TTL) ∧ ((0 : Int) < 10) ∧
    ((cachedFetch (clearCache ⟨some (0, some ⟨none, none⟩)⟩) 10
        (HttpResult.err "x")).2.2 = 1 ∧
     (cachedFetch (clearCache ⟨some (0, some ⟨none, none⟩)⟩) 10
        (HttpResult.err "x")).1 = (get_weather_data (HttpResult.err "x")).1 ∧
     (cachedFetch (clearCache ⟨some (0, some ⟨none, none⟩)⟩) 10
        (HttpResult.err "x")).2.1.entry =
          some (10, (get_weather_data (HttpResult.err "x")).1) ∧
     (∀ t v₀, CacheState.entry ⟨some (0, some ⟨none, none⟩)⟩ = some (t, v₀) →
        t < 10)) :=
  ⟨rfl, by decide, by decide,
   refresh_forces_fresh_fetch ⟨some (0, some ⟨none, none⟩)⟩ 0 10
     (some ⟨none, none⟩) (HttpResult.err "x") rfl (by decide) (by decide)⟩

/-- C1: for an hourly series of equal-length parallel sequences with
ascending timestamps and any fixed `now`, the window holds exactly the
records (with multiplicity) whose timestamp `t` satisfies
`now ≤ t < now + 24h`, as a sublist of the source (no gaps or
reorderings), still in ascending order; and on
`hourly.time = [T, T+1h, T+25h]` with `now = T` the windowed timestamps
are `[T, T+1h]`. -/
theorem window_next24h_spec (now : Int) (h : HourlyRec)
    (hlt : h.temperature_2m.length = h.time.length)
    (hlh : h.relative_humidity_2m.length = h.time.length)
    (hlp : h.precipitation_probability.length = h.time.length)
    (hasc : h.time.Pairwise (· ≤ ·)) :
    (∀ r : Row, (next24h now (rowsOf h)).count r =
        if inWindow now r then (rowsOf h).count r else 0) ∧
    (next24h now (rowsOf h)).Sublist (rowsOf h) ∧
    (next24h now (rowsOf h)).Pairwise (fun a b => a.time ≤ b.time) ∧
    (∀ T a₁ a₂ a₃ b₁ b₂ b₃ c₁ c₂ c₃ : Int,
      (next24h T (rowsOf ⟨[T, T + 3600, T + 90000], [a₁, a₂, a₃],
          [b₁, b₂, b₃], [c₁, c₂, c₃]⟩)).map Row.time = [T, T + 3600]) := by
  refine ⟨?_, ?_, ?_, ?_⟩
  · intro r
    by_cases hr : inWindow now r
    · rw [if_pos hr]
      exact List.count_filter (by simpa using hr)
    · rw [if_neg hr]
      refine List.count_eq_zero.mpr ?_
      intro hmem
      exact hr (by simpa using (List.mem_filter.mp hmem).2)
  · exact List.filter_sublist _
  · have hmap : (rowsOf h).map Row.time = h.time := rowsOf_map_time h hlt hlh hlp
    have hpm : ((rowsOf h).map Row.time).Pairwise (· ≤ ·) := hmap ▸ hasc
    rw [List.pairwise_map] at hpm
    exact List.Pairwise.sublist (List.filter_sublist _) hpm
  · intro T a₁ a₂ a₃ b₁ b₂ b₃ c₁ c₂ c₃
    have hw1 : inWindow T ⟨T, a₁, b₁, c₁⟩ :=
      ⟨le_refl T, show T < T + 86400 by omega⟩
    have hw2 : inWindow T ⟨T + 3600, a₂, b₂, c₂⟩ :=
      ⟨show T ≤ T + 3600 by omega, show T + 3600 < T + 86400 by omega⟩
    have hw3 : ¬ inWindow T ⟨T + 90000, a₃, b₃, c₃⟩ := by
      intro hcon
      have h₂ : T + 90000 < T + 86400 := hcon.2
      omega
    simp [next24h, rowsOf, List.zip, List.zipWith, List.filter, hw1, hw2, hw3]

/-- Witness for C1: a concrete three-hour series starting at time 0 with
ascending timestamps and equal column lengths. -/
theorem window_next24h_spec_witness :
    (([10, 11, 12] : List Int).length = ([0, 3600, 90000] : List Int).length ∧
     ([50, 55, 60] : List Int).length = ([0, 3600, 90000] : List Int).length ∧
     ([5, 6, 7] : List Int).length = ([0, 3600, 90000] : List Int).length ∧
     ([0, 3600, 90000] : List Int).Pairwise (· ≤ ·)) ∧
    (next24h 0 (rowsOf ⟨[0, 3600, 90000], [10, 11, 12], [50, 55, 60], [5, 6, 7]⟩)).Sublist
      (rowsOf ⟨[0, 3600, 90000], [10, 11, 12], [50, 55, 60], [5, 6, 7]⟩) ∧
    (next24h 0 (rowsOf ⟨[0, 3600, 90000], [10, 11, 12], [50, 55, 60], [5, 6, 7]⟩)).map
      Row.time = [0, 0 + 3600] :=
  ⟨⟨rfl, rfl, rfl, by decide⟩,
   (window_next24h_spec 0 ⟨[0, 3600, 90000], [10, 11, 12], [50, 55, 60], [5, 6, 7]⟩
      rfl rfl rfl (by decide)).2.1,
   (window_next24h_spec 0 ⟨[0, 3600, 90000], [10, 11, 12], [50, 55, 60], [5, 6, 7]⟩
      rfl rfl rfl (by decide)).2.2.2 0 10 11 12 50 55 60 5 6 7⟩

end WeatherDash
